import Mathlib

/-!
Verification of the search-query translation and result-normalization layer of
the amundsen frontend service (`amundsen_application/api/search/v0.py` and
`amundsen_application/api/utils/metadata_utils.py`).

Strings are embedded as `List Char` (`Str`) so that the splitting, counting and
joining operations the Python code performs (`str.split`, `str.count`,
`str.join`, `str.lower`) can be modelled by structurally recursive functions
with Python semantics (`split` on an explicit separator keeps empty pieces and
never returns an empty list).

Collaborators that live outside the translated files (the HTTP client
`request_search`, the whitelist `valid_search_fields`, the payload builder
`generate_query_json`, the user marshallers `load_user`/`dump_user` and
`map_table_result`) are modelled as parameters or from the spec, as documented
on each definition.
-/

deriving instance DecidableEq for Except

namespace AmundsenSearch

abbrev Str := List Char

/-- Convert a Lean string literal to the `List Char` embedding. -/
def str (s : String) : Str := s.data

/-- Python `s.count(c)` for a single-character needle: number of occurrences
of `c` in `s`. -/
def countChar (c : Char) : Str → Nat
  | [] => 0
  | a :: as => (if a = c then 1 else 0) + countChar c as

/-- Python `c in s` for a single character. -/
def containsChar (c : Char) : Str → Bool
  | [] => false
  | a :: as => a = c || containsChar c as

/-- Python `s.split(c)` with an explicit one-character separator: keeps empty
pieces and always returns at least one piece (`''.split(c) == ['']`). -/
def splitOnChar (c : Char) : Str → List Str
  | [] => [[]]
  | a :: as =>
    if a = c then [] :: splitOnChar c as
    else
      match splitOnChar c as with
      | [] => [[a]]
      | t :: ts => (a :: t) :: ts

/-- Python `' '.join(xs)`. -/
def joinSpace (xs : List Str) : Str := List.intercalate [' '] xs

/-- Python `s.lower()` (ASCII). -/
def lowerStr (s : Str) : Str := s.map Char.toLower

/-- Decimal rendering of a page index, as Python's string formatting does. -/
def natStr (n : Nat) : Str := (Nat.repr n).data

-- Sanity checks of the Python split semantics.
example : splitOnChar ':' (str "tag:hive") = [str "tag", str "hive"] := by decide
example : splitOnChar ' ' (str "tag:hive test") = [str "tag:hive", str "test"] := by decide
example : splitOnChar ':' (str "tag") = [str "tag"] := by decide
example : splitOnChar ':' [] = [[]] := by decide
example : countChar ':' (str "a:b:c") = 2 := by decide

/-- `SEARCH_ENDPOINT` from `v0.py`. -/
def SEARCH_ENDPOINT : Str := str "/search"

/-- `SEARCH_USER_ENDPOINT` from `v0.py`. -/
def SEARCH_USER_ENDPOINT : Str := str "/search_user"

/-- `_create_url_with_field` from `v0.py` (lines 118-147).  Splits the raw term
on spaces, splits the first token on `:`; indexing `search_field[1]` raises
`IndexError` ("list index out of range") when the first token holds no colon,
which we model by `Except.error`.  On success the field value is lower-cased
and the space-joined remainder is appended as `query_term` only when it is
non-empty. -/
def _create_url_with_field (base : Str) (search_term : Str) (page_index : Nat) :
    Except Str Str :=
  let fields := splitOnChar ' ' search_term
  let search_field := splitOnChar ':' (fields.headD [])
  match search_field.get? 1 with
  | none => .error (str "list index out of range")
  | some v =>
    let field_key := search_field.headD []
    let field_val := lowerStr v
    let rest := joinSpace fields.tail
    let url := base ++ SEARCH_ENDPOINT ++ str "/field/" ++ field_key ++
      str "/field_val/" ++ field_val ++ str "?page_index=" ++ natStr page_index
    if rest ≠ [] then .ok (url ++ str "&query_term=" ++ rest) else .ok url

-- The two concrete scenarios from the repository's unit test
-- `test_create_url_with_field`.
example :
    _create_url_with_field (str "B") (str "tag:hive test_table") 1 =
      .ok (str "B/search/field/tag/field_val/hive?page_index=1&query_term=test_table") := by
  decide
example :
    _create_url_with_field (str "B") (str "tag:hive") 1 =
      .ok (str "B/search/field/tag/field_val/hive?page_index=1") := by
  decide
example :
    _create_url_with_field (str "B") (str "tag1:hive tag") 1 =
      .ok (str "B/search/field/tag1/field_val/hive?page_index=1&query_term=tag") := by
  decide
example :
    _create_url_with_field (str "B") (str "tag hive:x") 1 =
      .error (str "list index out of range") := by
  decide

/-- The first space-delimited token of a raw term: `search_term.split(' ')[0]`
(total, since Python `split` never returns an empty list). -/
def firstToken (s : Str) : Str := (splitOnChar ' ' s).headD []

/-- The field key the code extracts: `search_term.split(' ')[0].split(':')[0]`. -/
def fieldKeyOf (s : Str) : Str := (splitOnChar ':' (firstToken s)).headD []

/-- The field value of a field-scoped term: the part of the first token after
the first `:` (that is, `search_term.split(' ')[0].split(':')[1]` when it
exists, `[]` otherwise). -/
def fieldValOf (s : Str) : Str := (splitOnChar ':' (firstToken s)).getD 1 []

/-- The remainder term: all space-delimited tokens after the first,
space-joined — `' '.join(search_term.split(' ')[1:])`. -/
def remainderOf (s : Str) : Str := joinSpace (splitOnChar ' ' s).tail

/-- An upstream table-search record, with the fields the repository's unit
tests exercise (`MOCK_TABLE_RESULTS` in `tests/unit/api/search/test_v0.py`). -/
structure TableSearchRecord where
  cluster : Str
  database : Str
  description : Str
  key : Str
  last_updated_timestamp : Nat
  name : Str
  schema : Str
deriving DecidableEq

/-- Modelled from the spec: `map_table_result`
(`amundsen_application/api/utils/search_utils.py`, not under `src/`)
normalizes one upstream table record — it copies the pass-through fields
verbatim and injects the `type = "table"` discriminator (shape confirmed by
`MOCK_PARSED_TABLE_RESULTS` in the repository's unit tests). -/
structure NormalizedTable where
  type' : Str
  cluster : Str
  database : Str
  description : Str
  key : Str
  last_updated_timestamp : Nat
  name : Str
  schema : Str
deriving DecidableEq

/-- Modelled from the spec: `map_table_result` (see `NormalizedTable`). -/
def map_table_result (r : TableSearchRecord) : NormalizedTable :=
  { type' := str "table", cluster := r.cluster, database := r.database,
    description := r.description, key := r.key,
    last_updated_timestamp := r.last_updated_timestamp, name := r.name,
    schema := r.schema }

/-- A well-formed upstream search-service response body:
`{ results: [...], total_results: n }`. -/
structure SearchBody where
  results : List TableSearchRecord
  total_results : Nat
deriving DecidableEq

/-- An upstream user-search record (fields from the unit-test fixture). -/
structure UserSearchRecord where
  name : Str
  email : Str
deriving DecidableEq

/-- Modelled from the spec: `dump_user (load_user r)`
(`amundsen_application/models/user.py`, not under `src/`) maps raw upstream
user fields to the normalized identity shape with derived `display_name`,
`full_name` and `user_id = email`; `_search_user` then injects
`type = "user"`. -/
structure NormalizedUser where
  display_name : Str
  full_name : Str
  user_id : Str
  email : Str
  type' : Str
deriving DecidableEq

/-- `_map_user_result` from `v0.py` (lines 230-233), with the
`dump_user`/`load_user` round trip modelled from the spec (see
`NormalizedUser`). -/
def _map_user_result (r : UserSearchRecord) : NormalizedUser :=
  { display_name := r.name, full_name := r.name, user_id := r.email,
    email := r.email, type' := str "user" }

/-- Upstream user-search response body. -/
structure UserBody where
  results : List UserSearchRecord
  total_results : Nat
deriving DecidableEq

/-- Outcome of `request_search(url=...)` followed by body parsing: either the
call itself raises (`exn`, e.g. a network error), or a response arrives with a
status code and a body whose JSON decoding / `results` extraction /
per-record normalization may itself raise (`Except.error`).  The body is only
consumed on the 200 path, exactly as in the code. -/
inductive Fetched (β : Type) where
  | exn (e : Str)
  | resp (status : Nat) (body : Except Str β)
deriving DecidableEq

/-- Modelled from the spec: `create_error_response`
(`amundsen_application/api/utils/response_utils.py`, not under `src/`)
attaches the message to the given payload as `msg` and returns it with the
given HTTP status code. -/
structure ErrorResponse where
  msg : Str
  search_term : Str
  results : List NormalizedTable
  total_results : Nat
  page_index : Nat
  status_code : Nat
deriving DecidableEq

/-- `_validate_search_term` from `v0.py` (lines 29-45).  `valid_search_fields`
is imported from `search_utils.py` (not under `src/`); modelled from the spec
as a parameter holding the fixed whitelist of valid field names. -/
def _validate_search_term (valid_search_fields : List Str) (search_term : Str)
    (page_index : Nat) : Option ErrorResponse :=
  if countChar ':' search_term > 1 then
    some { msg := str "Encountered error: Search field should not be more than 1",
           search_term := search_term, results := [], total_results := 0,
           page_index := page_index, status_code := 400 }
  else if countChar ':' search_term = 1 then
    if fieldKeyOf search_term ∈ valid_search_fields then none
    else
      some { msg := str "Encountered error: Search field is invalid",
             search_term := search_term, results := [], total_results := 0,
             page_index := page_index, status_code := 400 }
  else none

/-- The `tables` sub-dictionary of a table-search envelope. -/
structure Tables where
  page_index : Nat
  results : List NormalizedTable
  total_results : Nat
deriving DecidableEq

/-- The table-search results dictionary built by `_search_table` and
`search_table_query_string`.  A Python dict that never received a
`'status_code'` key is modelled by `status_code = none`. -/
structure ResultsDict where
  search_term : Str
  msg : Str
  tables : Tables
  status_code : Option Nat
deriving DecidableEq

/-- The URL construction of `_search_table` (`v0.py` lines 86-93): a
field-scoped URL when the term holds a colon, else the plain
`?query_term=...&page_index=...` URL. -/
def searchTableUrl (base : Str) (search_term : Str) (page_index : Nat) :
    Except Str Str :=
  if containsChar ':' search_term then
    _create_url_with_field base search_term page_index
  else
    .ok (base ++ SEARCH_ENDPOINT ++ str "?query_term=" ++ search_term ++
      str "&page_index=" ++ natStr page_index)

/-- `_search_table` from `v0.py` (lines 64-114).  `fetch` abstracts
`request_search` plus response decoding (see `Fetched`).  Any exception in the
`try` block — URL construction, the request itself, or 200-path body
processing — is caught and yields the default envelope with the
`"Encountered exception: "` message and no `status_code` key. -/
def _search_table (base : Str) (search_term : Str) (page_index : Nat)
    (fetch : Str → Fetched SearchBody) : ResultsDict :=
  let tables : Tables := { page_index := page_index, results := [], total_results := 0 }
  let results_dict : ResultsDict :=
    { search_term := search_term, msg := [], tables := tables, status_code := none }
  match searchTableUrl base search_term page_index with
  | .error e => { results_dict with msg := str "Encountered exception: " ++ e }
  | .ok url =>
    match fetch url with
    | .exn e => { results_dict with msg := str "Encountered exception: " ++ e }
    | .resp status_code body =>
      if status_code = 200 then
        match body with
        | .error e => { results_dict with msg := str "Encountered exception: " ++ e }
        | .ok b =>
          { results_dict with
            msg := str "Success",
            tables := { tables with
                        results := b.results.map map_table_result,
                        total_results := b.total_results },
            status_code := some status_code }
      else
        { results_dict with
          msg := str "Encountered error: Search request failed",
          status_code := some status_code }

/-- A response of the `/table` endpoint: either the error response produced by
validation, or the results dictionary together with the HTTP status chosen by
`results_dict.get('status_code', HTTPStatus.INTERNAL_SERVER_ERROR)`. -/
inductive TableSearchResponse where
  | clientError (e : ErrorResponse)
  | envelope (rd : ResultsDict) (http : Nat)
deriving DecidableEq

/-- `search_table` from `v0.py` (lines 50-59): validate, then run
`_search_table` and answer with the envelope's own status code, defaulting to
500 when the envelope has none. -/
def search_table (valid_search_fields : List Str) (base : Str)
    (search_term : Str) (page_index : Nat)
    (fetch : Str → Fetched SearchBody) : TableSearchResponse :=
  match _validate_search_term valid_search_fields search_term page_index with
  | some err => .clientError err
  | none =>
    let results_dict := _search_table base search_term page_index fetch
    .envelope results_dict (results_dict.status_code.getD 500)

/-- Modelled from the spec: the JSON payload `generate_query_json`
(`amundsen_application/api/utils/search_utils.py`, not under `src/`) builds by
combining `filters`, `page_index` and `search_term`. -/
structure QueryJson where
  search_term : Str
  page_index : Nat
  filters : List (Str × Str)
deriving DecidableEq

/-- `search_table_query_string` from `v0.py` (lines 151-207), after parameter
extraction.  `gen` is the outcome of `generate_query_json` (modelled from the
spec as a value since that helper is not under `src/`; it may raise).  `fetch`
abstracts the POST `request_search` with the serialized payload.  Returns the
results dictionary together with the HTTP status of the `make_response`
call. -/
def search_table_query_string (base : Str) (search_term : Str)
    (page_index : Nat) (gen : Except Str QueryJson)
    (fetch : Str → QueryJson → Fetched SearchBody) : ResultsDict × Nat :=
  let tables : Tables := { page_index := page_index, results := [], total_results := 0 }
  let results_dict : ResultsDict :=
    { search_term := search_term, msg := [], tables := tables, status_code := none }
  match gen with
  | .error e =>
    ({ results_dict with
        msg := str "Encountered exception generating query json: " ++ e }, 500)
  | .ok query_json =>
    match fetch (base ++ str "/search_table") query_json with
    | .exn e =>
      ({ results_dict with msg := str "Encountered exception: " ++ e }, 500)
    | .resp status_code body =>
      if status_code = 200 then
        match body with
        | .error e =>
          ({ results_dict with msg := str "Encountered exception: " ++ e }, 500)
        | .ok b =>
          ({ results_dict with
             msg := str "Success",
             tables := { tables with
                         results := b.results.map map_table_result,
                         total_results := b.total_results },
             status_code := some status_code }, status_code)
      else
        ({ results_dict with
            msg := str "Encountered error: Search request failed",
            status_code := some status_code }, status_code)

/-- The `users` sub-dictionary of a user-search envelope. -/
structure Users where
  page_index : Nat
  results : List NormalizedUser
  total_results : Nat
deriving DecidableEq

/-- The user-search results dictionary built by `_search_user`.  Unlike the
table variant it is created with the optimistic defaults
`msg = 'Success'` and `status_code = HTTPStatus.OK`. -/
structure UserResultsDict where
  search_term : Str
  msg : Str
  status_code : Option Nat
  users : Users
deriving DecidableEq

/-- The URL `_search_user` requests (`v0.py` lines 249-251). -/
def searchUserUrl (base : Str) (search_term : Str) (page_index : Nat) : Str :=
  base ++ SEARCH_USER_ENDPOINT ++ str "?query_term=" ++ search_term ++
    str "&page_index=" ++ natStr page_index

/-- `_search_user` from `v0.py` (lines 220-272).  The envelope starts with
`msg = 'Success'` and `status_code = 200`; the exception handler overwrites
only `msg`, so the envelope's `status_code` keeps its prior value there. -/
def _search_user (base : Str) (search_term : Str) (page_index : Nat)
    (fetch : Str → Fetched UserBody) : UserResultsDict :=
  let users : Users := { page_index := page_index, results := [], total_results := 0 }
  let results_dict : UserResultsDict :=
    { search_term := search_term, msg := str "Success", status_code := some 200,
      users := users }
  match fetch (searchUserUrl base search_term page_index) with
  | .exn e => { results_dict with msg := str "Encountered exception: " ++ e }
  | .resp status_code body =>
    if status_code = 200 then
      match body with
      | .error e => { results_dict with msg := str "Encountered exception: " ++ e }
      | .ok b =>
        { results_dict with
          msg := str "Success",
          users := { users with
                     results := b.results.map _map_user_result,
                     total_results := b.total_results },
          status_code := some status_code }
    else
      { results_dict with
        msg := str "Encountered error: Search request failed",
        status_code := some status_code }

/-- `search_user` from `v0.py` (lines 211-216): run `_search_user` and answer
with the envelope's status code, defaulting to 500 when absent. -/
def search_user (base : Str) (search_term : Str) (page_index : Nat)
    (fetch : Str → Fetched UserBody) : UserResultsDict × Nat :=
  let results_dict := _search_user base search_term page_index fetch
  (results_dict, results_dict.status_code.getD 500)

/-- The fields of a `PopularTable` consumed by `marshall_table_partial`
(the `PopularTableSchema` load/dump round trip of `amundsen_common` is an
external collaborator and acts as the identity on these fields). -/
structure PopularTable where
  database : Str
  cluster : Str
  schema : Str
  name : Str
  description : Str
deriving DecidableEq

/-- The partial table dictionary produced by `marshall_table_partial`. -/
structure MarshalledTable where
  database : Str
  cluster : Str
  schema : Str
  name : Str
  description : Str
  key : Str
  last_updated_timestamp : Option Nat
  type' : Str
deriving DecidableEq

/-- `marshall_table_partial` from `metadata_utils.py` (lines 9-27): dump the
schema fields, then add `key = f'{database}://{cluster}.{schema}/{name}'`,
`last_updated_timestamp = None` and `type = 'table'`. -/
def marshall_table_partial (t : PopularTable) : MarshalledTable :=
  { database := t.database, cluster := t.cluster, schema := t.schema,
    name := t.name, description := t.description,
    key := t.database ++ str "://" ++ t.cluster ++ str "." ++ t.schema ++
      str "/" ++ t.name,
    last_updated_timestamp := none, type' := str "table" }

/-! ### Facts about the Python-style string operations -/

theorem splitOnChar_ne_nil (c : Char) : ∀ s : Str, splitOnChar c s ≠ []
  | [] => by simp [splitOnChar]
  | a :: as => by
    simp only [splitOnChar]
    split
    · simp
    · split <;> simp

theorem length_splitOnChar (c : Char) :
    ∀ s : Str, (splitOnChar c s).length = countChar c s + 1
  | [] => rfl
  | a :: as => by
    have ih := length_splitOnChar c as
    simp only [splitOnChar, countChar]
    split
    · simp only [List.length_cons, ih]
      omega
    · cases hs : splitOnChar c as with
      | nil => exact absurd hs (splitOnChar_ne_nil c as)
      | cons t ts =>
        rw [hs] at ih
        simpa using ih

theorem splitOnChar_of_not_contains (c : Char) :
    ∀ s : Str, containsChar c s = false → splitOnChar c s = [s]
  | [], _ => rfl
  | a :: as, h => by
    simp only [containsChar, Bool.or_eq_false_iff, decide_eq_false_iff_not] at h
    rw [splitOnChar, if_neg h.1, splitOnChar_of_not_contains c as h.2]

theorem containsChar_eq_true_iff (c : Char) :
    ∀ s : Str, containsChar c s = true ↔ 0 < countChar c s
  | [] => by simp [containsChar, countChar]
  | a :: as => by
    simp only [containsChar, countChar, Bool.or_eq_true, decide_eq_true_eq]
    constructor
    · rintro (h | h)
      · simp [h]
      · have := (containsChar_eq_true_iff c as).mp h
        omega
    · intro h
      by_cases ha : a = c
      · exact Or.inl ha
      · right
        rw [if_neg ha] at h
        exact (containsChar_eq_true_iff c as).mpr (by omega)

theorem containsChar_eq_false_iff (c : Char) (s : Str) :
    containsChar c s = false ↔ countChar c s = 0 := by
  have h := containsChar_eq_true_iff c s
  cases hc : containsChar c s <;> simp [hc] at h ⊢ <;> omega

theorem get?_one_of_two_le {α : Type} (l : List α) (d : α) (h : 2 ≤ l.length) :
    l.get? 1 = some (l.getD 1 d) := by
  match l with
  | [] => simp at h
  | [a] => simp at h
  | a :: b :: t => rfl

/-! ### The claims -/

/-- C7: for every raw term containing zero `:` characters, the legacy
table-search translation emits the plain-query request URL with
`query_term` equal to the raw term and `page_index` echoed unchanged. -/
theorem C7_plain_query_translation (base s : Str) (p : Nat)
    (h : countChar ':' s = 0) :
    searchTableUrl base s p =
      .ok (base ++ SEARCH_ENDPOINT ++ str "?query_term=" ++ s ++
        str "&page_index=" ++ natStr p) := by
  have hc : containsChar ':' s = false := (containsChar_eq_false_iff ':' s).mpr h
  simp [searchTableUrl, hc]

/-- Witness for C7: the colon-free term `test table` at page index 0. -/
theorem C7_plain_query_translation_witness :
    countChar ':' (str "test table") = 0 ∧
      searchTableUrl (str "B") (str "test table") 0 =
        .ok (str "B/search?query_term=test table&page_index=0") := by
  refine ⟨by decide, ?_⟩
  exact (C7_plain_query_translation (str "B") (str "test table") 0 (by decide)).trans
    (by decide)

/-- C8: every normalized partial table record derives
`key = "{database}://{cluster}.{schema}/{name}"` and `type = "table"`; in
particular the `test_db`/`test_cluster`/`test_schema`/`test_table` record
yields `test_db://test_cluster.test_schema/test_table`. -/
theorem C8_marshall_table_key_and_type (t : PopularTable) :
    ( marshall_table_partial t).key =
        t.database ++ str "://" ++ t.cluster ++ str "." ++ t.schema ++
          str "/" ++ t.name ∧
      ( marshall_table_partial t).type' = str "table" ∧
      ( marshall_table_partial
          { database := str "test_db", cluster := str "test_cluster",
            schema := str "test_schema", name := str "test_table",
            description := [] }).key =
        str "test_db://test_cluster.test_schema/test_table" :=
  ⟨rfl, rfl, by decide⟩

/-- C6: an exception raised while building the structured-search JSON payload
is caught and returned as an HTTP 500 envelope with message
`"Encountered exception generating query json: {detail}"` and empty results;
the result does not depend on `fetch`, so no network call is involved. -/
theorem C6_query_json_exception (base s : Str) (p : Nat) (e : Str)
    (fetch : Str → QueryJson → Fetched SearchBody) :
    search_table_query_string base s p (.error e) fetch =
      ({ search_term := s,
         msg := str "Encountered exception generating query json: " ++ e,
         tables := { page_index := p, results := [], total_results := 0 },
         status_code := none }, 500) := rfl

/-- C4: an upstream 200 response with N well-formed records yields a
table-search envelope with exactly the N normalized records (one per upstream
record, in order), `total_results` equal to the upstream value,
message `"Success"` and status code 200 — for both the legacy `_search_table`
and the structured `search_table_query_string`. -/
theorem C4_success_normalization (base s : Str) (p : Nat) (u : Str)
    (b : SearchBody) (qj : QueryJson) (fetch : Str → Fetched SearchBody)
    (fetchq : Str → QueryJson → Fetched SearchBody) :
    (searchTableUrl base s p = .ok u → fetch u = .resp 200 (.ok b) →
      _search_table base s p fetch =
        { search_term := s, msg := str "Success",
          tables := { page_index := p,
                      results := b.results.map map_table_result,
                      total_results := b.total_results },
          status_code := some 200 } ∧
      (_search_table base s p fetch).tables.results.length = b.results.length) ∧
    (fetchq (base ++ str "/search_table") qj = .resp 200 (.ok b) →
      search_table_query_string base s p (.ok qj) fetchq =
        ({ search_term := s, msg := str "Success",
           tables := { page_index := p,
                       results := b.results.map map_table_result,
                       total_results := b.total_results },
           status_code := some 200 }, 200) ∧
      (search_table_query_string base s p (.ok qj) fetchq).1.tables.results.length =
        b.results.length) := by
  constructor
  · intro hu hf
    constructor
    · simp [_search_table, hu, hf]
    · simp [_search_table, hu, hf]
  · intro hf
    constructor
    · simp [search_table_query_string, hf]
    · simp [search_table_query_string, hf]

/-- Witness for C4: a colon-free term against an upstream 200 carrying one
record for the legacy search and the same for the structured search. -/
theorem C4_success_normalization_witness :
    _search_table (str "B") (str "test") 0
        (fun _ => .resp 200 (.ok { results := [], total_results := 7 })) =
      { search_term := str "test", msg := str "Success",
        tables := { page_index := 0, results := [], total_results := 7 },
        status_code := some 200 } ∧
    search_table_query_string (str "B") (str "hello") 1
        (.ok { search_term := str "hello", page_index := 1, filters := [] })
        (fun _ _ => .resp 200 (.ok { results := [], total_results := 1 })) =
      ({ search_term := str "hello", msg := str "Success",
         tables := { page_index := 1, results := [], total_results := 1 },
         status_code := some 200 }, 200) := by
  constructor
  · exact ((C4_success_normalization (str "B") (str "test") 0
      (str "B/search?query_term=test&page_index=0")
      { results := [], total_results := 7 }
      { search_term := [], page_index := 0, filters := [] }
      (fun _ => .resp 200 (.ok { results := [], total_results := 7 }))
      (fun _ _ => .exn [])).1 (by decide) rfl).1
  · exact ((C4_success_normalization (str "B") (str "hello") 1 []
      { results := [], total_results := 1 }
      { search_term := str "hello", page_index := 1, filters := [] }
      (fun _ => .exn [])
      (fun _ _ => .resp 200 (.ok { results := [], total_results := 1 }))).2 rfl).1

/-- C5: an upstream non-200 response yields an envelope keeping `results = []`
and `total_results = 0`, carrying the upstream's status code and the message
`"Encountered error: Search request failed"` — for both the legacy
`_search_table` and the structured `search_table_query_string` (whose HTTP
status equals the upstream code as well). -/
theorem C5_non_200_propagation (base s : Str) (p : Nat) (u : Str) (code : Nat)
    (body : Except Str SearchBody) (qj : QueryJson)
    (fetch : Str → Fetched SearchBody)
    (fetchq : Str → QueryJson → Fetched SearchBody) (hc : code ≠ 200) :
    (searchTableUrl base s p = .ok u → fetch u = .resp code body →
      _search_table base s p fetch =
        { search_term := s,
          msg := str "Encountered error: Search request failed",
          tables := { page_index := p, results := [], total_results := 0 },
          status_code := some code }) ∧
    (fetchq (base ++ str "/search_table") qj = .resp code body →
      search_table_query_string base s p (.ok qj) fetchq =
        ({ search_term := s,
           msg := str "Encountered error: Search request failed",
           tables := { page_index := p, results := [], total_results := 0 },
           status_code := some code }, code)) := by
  constructor
  · intro hu hf
    simp [_search_table, hu, hf, hc]
  · intro hf
    simp [search_table_query_string, hf, hc]

/-- Witness for C5: an upstream 400 for the legacy search and an upstream 503
for the structured search. -/
theorem C5_non_200_propagation_witness :
    _search_table (str "B") (str "test") 0
        (fun _ => .resp 400 (.ok { results := [], total_results := 0 })) =
      { search_term := str "test",
        msg := str "Encountered error: Search request failed",
        tables := { page_index := 0, results := [], total_results := 0 },
        status_code := some 400 } ∧
    search_table_query_string (str "B") (str "hello") 1
        (.ok { search_term := str "hello", page_index := 1, filters := [] })
        (fun _ _ => .resp 503 (.error (str "oops"))) =
      ({ search_term := str "hello",
         msg := str "Encountered error: Search request failed",
         tables := { page_index := 1, results := [], total_results := 0 },
         status_code := some 503 }, 503) := by
  constructor
  · exact (C5_non_200_propagation (str "B") (str "test") 0
      (str "B/search?query_term=test&page_index=0") 400
      (.ok { results := [], total_results := 0 })
      { search_term := [], page_index := 0, filters := [] }
      (fun _ => .resp 400 (.ok { results := [], total_results := 0 }))
      (fun _ _ => .exn []) (by decide)).1 (by decide) rfl
  · exact (C5_non_200_propagation (str "B") (str "hello") 1 [] 503
      (.error (str "oops"))
      { search_term := str "hello", page_index := 1, filters := [] }
      (fun _ => .exn [])
      (fun _ _ => .resp 503 (.error (str "oops"))) (by decide)).2 rfl

/-- C2 counterexample: at the raw term `a:b:c` (more than one `:`), the
endpoint does answer a 400 error with an empty envelope, but its message is
`"Encountered error: Search field should not be more than 1"`, which differs
from the claimed `"Search field should not be more than 1"`. -/
theorem C2_message_counterexample :
    search_table [str "tag"] (str "B") (str "a:b:c") 0 (fun _ => .exn []) =
        .clientError
          { msg := str "Encountered error: Search field should not be more than 1",
            search_term := str "a:b:c", results := [], total_results := 0,
            page_index := 0, status_code := 400 } ∧
      str "Encountered error: Search field should not be more than 1" ≠
        str "Search field should not be more than 1" := by
  constructor
  · decide
  · decide

/-- C2 (amended): a raw term with more than one `:` is rejected with HTTP 400,
an empty envelope and message
`"Encountered error: Search field should not be more than 1"`, and a raw term
with exactly one `:` whose field key is not whitelisted is rejected with HTTP
400, an empty envelope and message
`"Encountered error: Search field is invalid"`; both independently of `fetch`,
i.e. before any parsing or network call. -/
theorem C2_amended_validation_errors (valid_search_fields : List Str)
    (base s : Str) (p : Nat) (fetch : Str → Fetched SearchBody) :
    (1 < countChar ':' s →
      search_table valid_search_fields base s p fetch =
        .clientError
          { msg := str "Encountered error: Search field should not be more than 1",
            search_term := s, results := [], total_results := 0,
            page_index := p, status_code := 400 }) ∧
    (countChar ':' s = 1 → fieldKeyOf s ∉ valid_search_fields →
      search_table valid_search_fields base s p fetch =
        .clientError
          { msg := str "Encountered error: Search field is invalid",
            search_term := s, results := [], total_results := 0,
            page_index := p, status_code := 400 }) := by
  constructor
  · intro h
    simp [search_table, _validate_search_term, h]
  · intro h1 h2
    simp [search_table, _validate_search_term, h1, h2]

/-- Witness for C2 (amended): `a:b:c` trips the multi-field error and
`foo:bar` (with whitelist `[tag]`) trips the invalid-field error. -/
theorem C2_amended_validation_errors_witness :
    search_table [str "tag"] (str "B") (str "a:b:c") 1 (fun _ => .exn []) =
        .clientError
          { msg := str "Encountered error: Search field should not be more than 1",
            search_term := str "a:b:c", results := [], total_results := 0,
            page_index := 1, status_code := 400 } ∧
      search_table [str "tag"] (str "B") (str "foo:bar") 1 (fun _ => .exn []) =
        .clientError
          { msg := str "Encountered error: Search field is invalid",
            search_term := str "foo:bar", results := [], total_results := 0,
            page_index := 1, status_code := 400 } :=
  ⟨(C2_amended_validation_errors [str "tag"] (str "B") (str "a:b:c") 1
      (fun _ => .exn [])).1 (by decide),
    (C2_amended_validation_errors [str "tag"] (str "B") (str "foo:bar") 1
      (fun _ => .exn [])).2 (by decide) (by decide)⟩

/-- C9: whenever the `try` block of `_search_table` raises before the upstream
status code is recorded — URL construction raised, the request itself raised,
or 200-path body processing raised — the returned dictionary has no
`status_code` key (only the `"Encountered exception: "` message), and
`search_table` then answers HTTP 500 via its default lookup. -/
theorem C9_exception_envelope_no_status (valid_search_fields : List Str)
    (base s : Str) (p : Nat) (u e : Str) (fetch : Str → Fetched SearchBody) :
    (searchTableUrl base s p = .error e →
      _search_table base s p fetch =
        { search_term := s, msg := str "Encountered exception: " ++ e,
          tables := { page_index := p, results := [], total_results := 0 },
          status_code := none }) ∧
    (searchTableUrl base s p = .ok u → fetch u = .exn e →
      _search_table base s p fetch =
        { search_term := s, msg := str "Encountered exception: " ++ e,
          tables := { page_index := p, results := [], total_results := 0 },
          status_code := none }) ∧
    (searchTableUrl base s p = .ok u → fetch u = .resp 200 (.error e) →
      _search_table base s p fetch =
        { search_term := s, msg := str "Encountered exception: " ++ e,
          tables := { page_index := p, results := [], total_results := 0 },
          status_code := none }) ∧
    (_validate_search_term valid_search_fields s p = none →
      (_search_table base s p fetch).status_code = none →
      search_table valid_search_fields base s p fetch =
        .envelope (_search_table base s p fetch) 500) := by
  refine ⟨?_, ?_, ?_, ?_⟩
  · intro hu
    simp [_search_table, hu]
  · intro hu hf
    simp [_search_table, hu, hf]
  · intro hu hf
    simp [_search_table, hu, hf]
  · intro hv hs
    simp [search_table, hv, hs]

/-- Witness for C9: the URL-construction `IndexError` input `tag hive:x`, a
raising request on the colon-free term `test`, a 200 response with an
unreadable body, and the 500 default lookup on the first of these. -/
theorem C9_exception_envelope_no_status_witness :
    _search_table (str "B") (str "tag hive:x") 0 (fun _ => .exn (str "net down")) =
      { search_term := str "tag hive:x",
        msg := str "Encountered exception: " ++ str "list index out of range",
        tables := { page_index := 0, results := [], total_results := 0 },
        status_code := none } ∧
    _search_table (str "B") (str "test") 0 (fun _ => .exn (str "net down")) =
      { search_term := str "test",
        msg := str "Encountered exception: " ++ str "net down",
        tables := { page_index := 0, results := [], total_results := 0 },
        status_code := none } ∧
    _search_table (str "B") (str "test") 0
        (fun _ => .resp 200 (.error (str "bad json"))) =
      { search_term := str "test",
        msg := str "Encountered exception: " ++ str "bad json",
        tables := { page_index := 0, results := [], total_results := 0 },
        status_code := none } ∧
    search_table [str "tag"] (str "B") (str "tag hive:x") 0
        (fun _ => .exn (str "net down")) =
      .envelope
        (_search_table (str "B") (str "tag hive:x") 0 (fun _ => .exn (str "net down")))
        500 := by
  refine ⟨?_, ?_, ?_, ?_⟩
  · exact (C9_exception_envelope_no_status [str "tag"] (str "B") (str "tag hive:x") 0
      [] (str "list index out of range") (fun _ => .exn (str "net down"))).1 (by decide)
  · exact (C9_exception_envelope_no_status [str "tag"] (str "B") (str "test") 0
      (str "B/search?query_term=test&page_index=0") (str "net down")
      (fun _ => .exn (str "net down"))).2.1 (by decide) rfl
  · exact (C9_exception_envelope_no_status [str "tag"] (str "B") (str "test") 0
      (str "B/search?query_term=test&page_index=0") (str "bad json")
      (fun _ => .resp 200 (.error (str "bad json")))).2.2.1 (by decide) rfl
  · exact (C9_exception_envelope_no_status [str "tag"] (str "B") (str "tag hive:x") 0
      [] [] (fun _ => .exn (str "net down"))).2.2.2 (by decide) (by decide)

/-- C3 counterexample: when the user-search request itself raises (upstream
status never known), the claim demands the envelope be overwritten to HTTP
500; instead the envelope keeps its optimistic `status_code = 200` — the
exception handler only overwrites `msg` — and the client receives HTTP 200. -/
theorem C3_status_not_overwritten_counterexample :
    (_search_user (str "B") (str "q") 0 (fun _ => .exn (str "boom"))).msg =
        str "Encountered exception: boom" ∧
      (_search_user (str "B") (str "q") 0 (fun _ => .exn (str "boom"))).status_code =
        some 200 ∧
      (_search_user (str "B") (str "q") 0 (fun _ => .exn (str "boom"))).status_code ≠
        some 500 ∧
      (search_user (str "B") (str "q") 0 (fun _ => .exn (str "boom"))).2 = 200 := by
  refine ⟨by decide, by decide, by decide, by decide⟩

/-- C3 (amended): on a non-200 upstream response the user-search envelope's
`status_code` is overwritten to the upstream code and the message to
`"Encountered error: Search request failed"`; but on any exception — raised
before the envelope's `status_code` is re-assigned — only the message is
overwritten (prefixed `"Encountered exception: "`) while `status_code` keeps
its optimistic 200, so the client receives HTTP 200, not 500. -/
theorem C3_amended_user_failure_paths (base s : Str) (p : Nat) (e : Str)
    (code : Nat) (body : Except Str UserBody)
    (fetch : Str → Fetched UserBody) :
    (fetch (searchUserUrl base s p) = .exn e →
      _search_user base s p fetch =
        { search_term := s, msg := str "Encountered exception: " ++ e,
          status_code := some 200,
          users := { page_index := p, results := [], total_results := 0 } } ∧
      (search_user base s p fetch).2 = 200) ∧
    (fetch (searchUserUrl base s p) = .resp 200 (.error e) →
      _search_user base s p fetch =
        { search_term := s, msg := str "Encountered exception: " ++ e,
          status_code := some 200,
          users := { page_index := p, results := [], total_results := 0 } } ∧
      (search_user base s p fetch).2 = 200) ∧
    (fetch (searchUserUrl base s p) = .resp code body → code ≠ 200 →
      _search_user base s p fetch =
        { search_term := s,
          msg := str "Encountered error: Search request failed",
          status_code := some code,
          users := { page_index := p, results := [], total_results := 0 } } ∧
      (search_user base s p fetch).2 = code) := by
  refine ⟨?_, ?_, ?_⟩
  · intro hf
    constructor
    · simp [_search_user, hf]
    · simp [search_user, _search_user, hf]
  · intro hf
    constructor
    · simp [_search_user, hf]
    · simp [search_user, _search_user, hf]
  · intro hf hc
    constructor
    · simp [_search_user, hf, hc]
    · simp [search_user, _search_user, hf, hc]

/-- Witness for C3 (amended): a raising request, a 200 response with an
unreadable body, and an upstream 404. -/
theorem C3_amended_user_failure_paths_witness :
    (_search_user (str "B") (str "q") 0 (fun _ => .exn (str "boom")) =
      { search_term := str "q", msg := str "Encountered exception: " ++ str "boom",
        status_code := some 200,
        users := { page_index := 0, results := [], total_results := 0 } }) ∧
    (_search_user (str "B") (str "q") 0 (fun _ => .resp 200 (.error (str "bad"))) =
      { search_term := str "q", msg := str "Encountered exception: " ++ str "bad",
        status_code := some 200,
        users := { page_index := 0, results := [], total_results := 0 } }) ∧
    (_search_user (str "B") (str "q") 0
        (fun _ => .resp 404 (.ok { results := [], total_results := 0 })) =
      { search_term := str "q",
        msg := str "Encountered error: Search request failed",
        status_code := some 404,
        users := { page_index := 0, results := [], total_results := 0 } }) ∧
    (search_user (str "B") (str "q") 0
        (fun _ => .resp 404 (.ok { results := [], total_results := 0 }))).2 = 404 := by
  have h3 := (C3_amended_user_failure_paths (str "B") (str "q") 0 []
    404 (.ok { results := [], total_results := 0 })
    (fun _ => .resp 404 (.ok { results := [], total_results := 0 }))).2.2
    rfl (by decide)
  refine ⟨?_, ?_, h3.1, h3.2⟩
  · exact ((C3_amended_user_failure_paths (str "B") (str "q") 0 (str "boom")
      0 (.ok { results := [], total_results := 0 })
      (fun _ => .exn (str "boom"))).1 rfl).1
  · exact ((C3_amended_user_failure_paths (str "B") (str "q") 0 (str "bad")
      0 (.ok { results := [], total_results := 0 })
      (fun _ => .resp 200 (.error (str "bad")))).2.1 rfl).1

/-- C10: a raw term whose single `:` sits after the first space passes
validation whenever its first token is a whitelisted field name, yet
`_create_url_with_field` indexes element 1 of a one-element split and raises
`IndexError`, so the request ends in the exception envelope (message prefixed
`"Encountered exception: "`, no `status_code` key) and the client receives
HTTP 500. -/
theorem C10_validated_term_reaches_index_error (valid_search_fields : List Str)
    (base s : Str) (p : Nat) (fetch : Str → Fetched SearchBody)
    (h1 : countChar ':' s = 1)
    (h2 : containsChar ':' (firstToken s) = false)
    (h3 : firstToken s ∈ valid_search_fields) :
    _validate_search_term valid_search_fields s p = none ∧
    _create_url_with_field base s p = .error (str "list index out of range") ∧
    _search_table base s p fetch =
      { search_term := s,
        msg := str "Encountered exception: list index out of range",
        tables := { page_index := p, results := [], total_results := 0 },
        status_code := none } ∧
    search_table valid_search_fields base s p fetch =
      .envelope (_search_table base s p fetch) 500 := by
  have hsplit : splitOnChar ':' (firstToken s) = [firstToken s] :=
    splitOnChar_of_not_contains ':' (firstToken s) h2
  have hkey : fieldKeyOf s = firstToken s := by
    simp [fieldKeyOf, hsplit]
  have hval : _validate_search_term valid_search_fields s p = none := by
    simp [_validate_search_term, h1, hkey, h3]
  have hft : (splitOnChar ' ' s).head?.getD [] = firstToken s := by
    show _ = (splitOnChar ' ' s).headD []
    cases splitOnChar ' ' s <;> rfl
  have hnone : (splitOnChar ':' ((splitOnChar ' ' s).head?.getD []))[1]? = none := by
    rw [hft, hsplit]
    rfl
  have hurl : _create_url_with_field base s p =
      .error (str "list index out of range") := by
    simp [_create_url_with_field, hnone]
  have hcs : containsChar ':' s = true :=
    (containsChar_eq_true_iff ':' s).mpr (by omega)
  have hsurl : searchTableUrl base s p = .error (str "list index out of range") := by
    simp [searchTableUrl, hcs, hurl]
  have hmsg : str "Encountered exception: " ++ str "list index out of range" =
      str "Encountered exception: list index out of range" := by decide
  have hst : _search_table base s p fetch =
      { search_term := s,
        msg := str "Encountered exception: list index out of range",
        tables := { page_index := p, results := [], total_results := 0 },
        status_code := none } := by
    simp [_search_table, hsurl, hmsg]
  exact ⟨hval, hurl, hst, by simp [search_table, hval, hst]⟩

/-- Witness for C10: the term `tag hive:x` with whitelist `[tag]`. -/
theorem C10_validated_term_reaches_index_error_witness :
    _validate_search_term [str "tag"] (str "tag hive:x") 0 = none ∧
    _create_url_with_field (str "B") (str "tag hive:x") 0 =
      .error (str "list index out of range") ∧
    _search_table (str "B") (str "tag hive:x") 0 (fun _ => .exn []) =
      { search_term := str "tag hive:x",
        msg := str "Encountered exception: list index out of range",
        tables := { page_index := 0, results := [], total_results := 0 },
        status_code := none } ∧
    search_table [str "tag"] (str "B") (str "tag hive:x") 0 (fun _ => .exn []) =
      .envelope
        (_search_table (str "B") (str "tag hive:x") 0 (fun _ => .exn [])) 500 :=
  C10_validated_term_reaches_index_error [str "tag"] (str "B") (str "tag hive:x")
    0 (fun _ => .exn []) (by decide) (by decide) (by decide)

/-- C1 counterexample: the raw term `tag hive:x` contains exactly one `:` and
its field key (`tag`, the first token's prefix before `:`) is whitelisted, yet
the translation does not build a field-scoped URL — it raises `IndexError`
(`Except.error`) instead. -/
theorem C1_url_counterexample :
    countChar ':' (str "tag hive:x") = 1 ∧
      fieldKeyOf (str "tag hive:x") ∈ [str "tag"] ∧
      searchTableUrl (str "B") (str "tag hive:x") 1 =
        .error (str "list index out of range") := by
  refine ⟨by decide, by decide, by decide⟩

/-- C1 (amended): for a raw term with exactly one `:` which occurs inside the
first space-delimited token and whose field key is whitelisted, validation
passes and the translation builds
`/field/{field_key}/field_val/{field_value}?page_index={page_index}` with the
field value lower-cased, appending `&query_term={remainder}` exactly when the
space-joined remainder is non-empty. -/
theorem C1_amended_field_scoped_url (valid_search_fields : List Str)
    (base s : Str) (p : Nat)
    (h1 : countChar ':' s = 1)
    (h2 : containsChar ':' (firstToken s) = true)
    (h3 : fieldKeyOf s ∈ valid_search_fields) :
    _validate_search_term valid_search_fields s p = none ∧
    searchTableUrl base s p =
      .ok (base ++ SEARCH_ENDPOINT ++ str "/field/" ++ fieldKeyOf s ++
        str "/field_val/" ++ lowerStr (fieldValOf s) ++ str "?page_index=" ++
        natStr p ++
        (if remainderOf s = [] then []
         else str "&query_term=" ++ remainderOf s)) := by
  have hval : _validate_search_term valid_search_fields s p = none := by
    simp [_validate_search_term, h1, h3]
  have hcount := (containsChar_eq_true_iff ':' (firstToken s)).mp h2
  have hlen := length_splitOnChar ':' (firstToken s)
  have hv : (splitOnChar ':' ((splitOnChar ' ' s).headD [])).get? 1 =
      some (fieldValOf s) :=
    get?_one_of_two_le (splitOnChar ':' (firstToken s)) [] (by omega)
  have hcs : containsChar ':' s = true :=
    (containsChar_eq_true_iff ':' s).mpr (by omega)
  refine ⟨hval, ?_⟩
  rw [searchTableUrl, if_pos hcs]
  simp only [_create_url_with_field, hv]
  rw [show remainderOf s = joinSpace (splitOnChar ' ' s).tail from rfl]
  by_cases hr : joinSpace (splitOnChar ' ' s).tail = []
  · rw [if_neg (not_not_intro hr), if_pos hr, List.append_nil]
    simp [fieldKeyOf, firstToken, List.append_assoc]
  · rw [if_pos hr, if_neg hr]
    simp [fieldKeyOf, firstToken, List.append_assoc]

/-- Witness for C1 (amended): the repository unit test's own scenario,
`tag:hive test_table` at page index 1. -/
theorem C1_amended_field_scoped_url_witness :
    _validate_search_term [str "tag"] (str "tag:hive test_table") 1 = none ∧
    searchTableUrl (str "B") (str "tag:hive test_table") 1 =
      .ok (str "B/search/field/tag/field_val/hive?page_index=1&query_term=test_table") := by
  have h := C1_amended_field_scoped_url [str "tag"] (str "B")
    (str "tag:hive test_table") 1 (by decide) (by decide) (by decide)
  exact ⟨h.1, h.2.trans (by decide)⟩

end AmundsenSearch
